import Mathlib

/-!
Verification of the local version-control integration engine of the Marko
markdown editor (src/src-tauri/src/lib.rs): status classification, single-file
commit and revert, ahead/behind divergence, file status lookup, and the
pull-then-push sync sequence. External effects (repository discovery, the
libgit2 status query, subprocess execution) are modelled as oracle inputs;
the control flow of each Rust function is embedded faithfully.
-/

namespace Marko

/-- A `git2::Status` flag set for one path: the independent index-side and
worktree-side bits that `git_status_to_string` inspects, each modelled as a
`Bool`. -/
structure Status where
  conflicted : Bool
  index_new : Bool
  index_modified : Bool
  index_deleted : Bool
  index_renamed : Bool
  wt_new : Bool
  wt_modified : Bool
  wt_deleted : Bool
  wt_renamed : Bool
deriving DecidableEq, Repr

/-- Embedding of `git_status_to_string` (lib.rs lines 520-540): the ordered
rule evaluation mapping a flag set to a user-facing label, `none` meaning no
label. `contains` on a union of flags means all are set; `intersects` means
at least one is set. -/
def git_status_to_string (s : Status) : Option String :=
  if s.conflicted then
    some "conflicted"
  else if s.index_new && s.wt_modified then
    some "staged_modified"
  else if (s.index_modified || s.index_new || s.index_renamed)
      && !(s.wt_modified || s.wt_deleted) then
    some "staged"
  else if s.wt_modified || s.index_modified then
    some "modified"
  else if s.wt_new then
    some "untracked"
  else if s.wt_deleted || s.index_deleted then
    some "deleted"
  else if s.wt_renamed || s.index_renamed then
    some "renamed"
  else
    none

/-- A flag set with conflicted, index-new and worktree-modified all set:
`git_status_to_string` classifies it by the first rule. -/
def statusConflictedStagedModified : Status :=
  { conflicted := true, index_new := true, index_modified := false
    index_deleted := false, index_renamed := false, wt_new := false
    wt_modified := true, wt_deleted := false, wt_renamed := false }

/-- A flag set with only index-new and worktree-modified set. -/
def statusIndexNewWtModified : Status :=
  { conflicted := false, index_new := true, index_modified := false
    index_deleted := false, index_renamed := false, wt_new := false
    wt_modified := true, wt_deleted := false, wt_renamed := false }

/-- A flag set with only index-modified set. -/
def statusIndexModifiedOnly : Status :=
  { conflicted := false, index_new := false, index_modified := true
    index_deleted := false, index_renamed := false, wt_new := false
    wt_modified := false, wt_deleted := false, wt_renamed := false }

/-- A flag set with only worktree-new set (an untracked path). -/
def statusUntracked : Status :=
  { conflicted := false, index_new := false, index_modified := false
    index_deleted := false, index_renamed := false, wt_new := true
    wt_modified := false, wt_deleted := false, wt_renamed := false }

/-- Is the first character list a prefix of the second? -/
def isPrefixList : List Char → List Char → Bool
  | [], _ => true
  | _ :: _, [] => false
  | a :: as, b :: bs => a = b && isPrefixList as bs

/-- Embedding of `Path::strip_prefix` as used on the repository working
directory: when `workdir` is a prefix of `path`, the remainder of `path`;
otherwise `none` (the Rust call returns `Err`, surfaced as an error string by
the callers). -/
def stripWorkdir (workdir path : String) : Option String :=
  if isPrefixList workdir.data path.data then
    some (String.mk (path.data.drop workdir.data.length))
  else none

/-- An association list from relative path to blob content, modelling the git
index (and the trees written from it). -/
abbrev Entries := List (String × String)

/-- Look a relative path up in an index or tree. -/
def lookupEntry : Entries → String → Option String
  | [], _ => none
  | (k, v) :: rest, key => if k = key then some v else lookupEntry rest key

/-- Replace (or append) the entry for one relative path, leaving every other
entry in place: the effect of `Index::add_path` on the entry list. -/
def setEntry : Entries → String → String → Entries
  | [], key, v => [(key, v)]
  | (k, w) :: rest, key, v =>
    if k = key then (key, v) :: rest else (k, w) :: setEntry rest key v

/-- The parts of an opened repository that `get_file_git_status` and
`git_revert_file` consult: the working directory (`none` for a bare
repository), the per-path `status_file` oracle (`Except.error` when the
libgit2 call fails), the working-tree contents, and the HEAD tree contents. -/
structure Repo where
  workdir : Option String
  statusFile : String → Except String Status
  worktree : Entries
  headFile : String → Option String

/-- Embedding of `get_file_git_status` (lib.rs lines 574-592). The
`discovered` argument is the outcome of `Repository::discover` on the path's
parent: `none` when discovery fails. -/
def get_file_git_status (discovered : Option Repo) (path : String) :
    Except String (Option String) :=
  match discovered with
  | none => .ok none
  | some repo =>
    match repo.workdir with
    | none => .error "Bare repository"
    | some wd =>
      match stripWorkdir wd path with
      | none => .error "strip prefix error"
      | some rel =>
        match repo.statusFile rel with
        | .error e => .error e
        | .ok st => .ok (git_status_to_string st)

/-- The effect of `checkout_head` with a forced single-path checkout: the
path's working-tree content is restored from HEAD (or removed when HEAD has
no such path); nothing else changes. -/
def checkout_head (repo : Repo) (rel : String) : Repo :=
  match repo.headFile rel with
  | some c => { repo with worktree := setEntry repo.worktree rel c }
  | none =>
    { repo with worktree := repo.worktree.filter (fun e => e.1 ≠ rel) }

/-- Embedding of `git_revert_file` (lib.rs lines 629-655): returns the
operation outcome together with the repository state afterwards (unchanged on
every error path, since the only mutation is the final checkout). -/
def git_revert_file (repo : Repo) (path : String) :
    Except String Unit × Repo :=
  match repo.workdir with
  | none => (.error "Bare repository", repo)
  | some wd =>
    match stripWorkdir wd path with
    | none => (.error "strip prefix error", repo)
    | some rel =>
      match repo.statusFile rel with
      | .error e => (.error e, repo)
      | .ok st =>
        if st.wt_new then (.error "Cannot revert an untracked file", repo)
        else (.ok (), checkout_head repo rel)

/-- The parts of an opened repository that `git_commit_file` consults: the
working directory, the current index, the working-tree contents read by
`Index::add_path`, HEAD peeled to a commit (`none` when `repo.head()` fails
or does not peel to a commit, e.g. an unborn branch), and whether the
configured signature resolves. -/
structure CommitRepo where
  workdir : Option String
  index : Entries
  worktreeFile : String → Option String
  headCommit : Option Nat
  sigOk : Bool

/-- The commit object created by `Repository::commit`: its tree (written from
the whole index), its parent list, and its message. -/
structure CommitRecord where
  tree : Entries
  parents : List Nat
  message : String

/-- Embedding of `git_commit_file` (lib.rs lines 594-627): stage the single
relative path into the index via `add_path` (which fails when the path cannot
be read from the working tree), write the whole updated index as the tree,
and commit it with the HEAD commit as sole parent when one exists. -/
def git_commit_file (repo : CommitRepo) (path message : String) :
    Except String CommitRecord :=
  match repo.workdir with
  | none => .error "Bare repository"
  | some wd =>
    match stripWorkdir wd path with
    | none => .error "strip prefix error"
    | some rel =>
      match repo.worktreeFile rel with
      | none => .error "add_path error"
      | some content =>
        if repo.sigOk then
          .ok { tree := setEntry repo.index rel content
                parents := repo.headCommit.toList
                message := message }
        else
          .error "signature error"

/-- The `repo.head()` result consulted by `get_git_ahead_behind`: the
reference's direct target and its shorthand branch name. -/
structure HeadRef where
  target : Option Nat
  shorthand : Option String

/-- The parts of an opened repository that `get_git_ahead_behind` consults:
the HEAD reference (`none` when `repo.head()` errors), the reference lookup
oracle (`none` when `find_reference` errors, otherwise the found reference's
target), and the commit-graph counting oracle. -/
structure ABRepo where
  head : Option HeadRef
  findRef : String → Option (Option Nat)
  graphAheadBehind : Nat → Nat → Except String (Nat × Nat)

/-- Embedding of `get_git_ahead_behind` (lib.rs lines 663-701). The
`discovered` argument is the outcome of `Repository::discover`. -/
def get_git_ahead_behind (discovered : Option ABRepo) :
    Except String (Option (Nat × Nat)) :=
  match discovered with
  | none => .ok none
  | some repo =>
    match repo.head with
    | none => .ok none
    | some h =>
      match h.target with
      | none => .ok none
      | some localOid =>
        match h.shorthand with
        | none => .ok none
        | some branchName =>
          match repo.findRef ("refs/remotes/origin/" ++ branchName) with
          | none => .ok (some (0, 0))
          | some upstreamTarget =>
            match upstreamTarget with
            | none => .ok none
            | some upstreamOid =>
              match repo.graphAheadBehind localOid upstreamOid with
              | .error e => .error e
              | .ok ab => .ok (some ab)

/-- The observable result of one subprocess run (`std::process::Command`):
`Except.error` when spawning itself fails, otherwise the exit status flag and
captured stderr. -/
structure CmdOutput where
  success : Bool
  stderr : String

/-- The environment of one `git_sync` invocation: the discovery outcome
(`none` = not a repository; `some none` = bare), and what the external
`git pull --ff-only` and `git push` subprocesses would produce if run. -/
structure SyncEnv where
  discovered : Option (Option String)
  pullResult : Except String CmdOutput
  pushResult : Except String CmdOutput

/-- Did a subprocess phase fail — either spawning failed or the process
exited unsuccessfully? -/
def cmdFailed : Except String CmdOutput → Bool
  | .error _ => true
  | .ok out => !out.success

/-- The result of one `git_sync` invocation, plus which of the two external
phases were actually attempted. -/
structure SyncResult where
  result : Except String String
  pullAttempted : Bool
  pushAttempted : Bool

/-- Is an error message tagged as a failure of the pull phase? Exactly the
two message shapes `git_sync` produces before the push phase. -/
def pullTagged (msg : String) : Bool :=
  isPrefixList "Failed to run git pull: ".data msg.data ||
    isPrefixList "git pull failed: ".data msg.data

/-- Embedding of `git_sync` (lib.rs lines 703-734): discover, run
`git pull --ff-only`, abort on any pull failure, then run `git push`. -/
def git_sync (env : SyncEnv) : SyncResult :=
  match env.discovered with
  | none =>
    { result := .error "Not a git repository"
      pullAttempted := false, pushAttempted := false }
  | some none =>
    { result := .error "Bare repository"
      pullAttempted := false, pushAttempted := false }
  | some (some _) =>
    match env.pullResult with
    | .error e =>
      { result := .error ("Failed to run git pull: " ++ e)
        pullAttempted := true, pushAttempted := false }
    | .ok pull =>
      if !pull.success then
        { result := .error ("git pull failed: " ++ pull.stderr)
          pullAttempted := true, pushAttempted := false }
      else
        match env.pushResult with
        | .error e =>
          { result := .error ("Failed to run git push: " ++ e)
            pullAttempted := true, pushAttempted := true }
        | .ok push =>
          if !push.success then
            { result := .error ("git push failed: " ++ push.stderr)
              pullAttempted := true, pushAttempted := true }
          else
            { result := .ok "Sync complete"
              pullAttempted := true, pushAttempted := true }

/-- A non-bare repository in which every path reports as untracked and HEAD
holds nothing. -/
def repoUntracked : Repo :=
  { workdir := some "/r/"
    statusFile := fun _ => .ok statusUntracked
    worktree := [("a.md", "hello")]
    headFile := fun _ => none }

/-- A commit environment: `b.md` already staged, `a.md` present in the
working tree, HEAD at commit 7, signature resolvable. -/
def commitRepoExample : CommitRepo :=
  { workdir := some "/r/"
    index := [("b.md", "old-b")]
    worktreeFile := fun rel => if rel = "a.md" then some "new-a" else none
    headCommit := some 7
    sigOk := true }

/-- The commit record `git_commit_file` produces from `commitRepoExample`
for path `/r/a.md` and message `add a`. -/
def commitRecExample : CommitRecord :=
  { tree := [("b.md", "old-b"), ("a.md", "new-a")]
    parents := [7]
    message := "add a" }

/-- A HEAD reference on branch `main` at commit 42. -/
def headRefMain : HeadRef :=
  { target := some 42, shorthand := some "main" }

/-- An ahead/behind environment: HEAD on branch `main` at commit 42, with no
reference lookup succeeding (no `refs/remotes/origin/main`). -/
def abRepoNoUpstream : ABRepo :=
  { head := some headRefMain
    findRef := fun _ => none
    graphAheadBehind := fun _ _ => .ok (1, 2) }

/-- A sync environment over a discovered non-bare repository in which the
pull subprocess runs but exits unsuccessfully. -/
def syncEnvPullFails : SyncEnv :=
  { discovered := some (some "/r/")
    pullResult := .ok { success := false, stderr := "non-fast-forward" }
    pushResult := .ok { success := true, stderr := "" } }

end Marko

namespace Marko

/-- C1: any flag set with the conflict flag set is classified `conflicted`,
whatever other flags co-occur. -/
theorem conflicted_always_wins (s : Status) (h : s.conflicted = true) :
    git_status_to_string s = some "conflicted" := by
  simp [git_status_to_string, h]

/-- Witness for C1 at a concrete flag set that also carries index-new and
worktree-modified. -/
theorem conflicted_always_wins_witness :
    statusConflictedStagedModified.conflicted = true ∧
    git_status_to_string statusConflictedStagedModified = some "conflicted" :=
  ⟨rfl, conflicted_always_wins statusConflictedStagedModified rfl⟩

/-- C2, counterexample to the claim as stated: a flag set carrying index-new
and worktree-modified together with the conflict flag is classified
`conflicted`, not `staged_modified` — the conflict rule precedes the
staged-modified rule. -/
theorem staged_modified_claim_counterexample :
    statusConflictedStagedModified.index_new = true ∧
    statusConflictedStagedModified.wt_modified = true ∧
    git_status_to_string statusConflictedStagedModified ≠
      some "staged_modified" := by
  refine ⟨rfl, rfl, ?_⟩
  decide

/-- C2, amended: a flag set with index-new and worktree-modified both set and
the conflict flag clear is classified `staged_modified`; and with index-new
and worktree-modified both set it is never classified `staged` or `modified`,
whatever else co-occurs. -/
theorem index_new_wt_modified_staged_modified (s : Status)
    (h1 : s.index_new = true) (h2 : s.wt_modified = true) :
    (s.conflicted = false →
      git_status_to_string s = some "staged_modified") ∧
    git_status_to_string s ≠ some "staged" ∧
    git_status_to_string s ≠ some "modified" := by
  obtain ⟨c, iN, iM, iD, iR, wN, wM, wD, wR⟩ := s
  simp only at h1 h2
  subst h1 h2
  cases c <;> simp [git_status_to_string]

/-- Witness for C2 (amended) at the flag set with exactly index-new and
worktree-modified set. -/
theorem index_new_wt_modified_staged_modified_witness :
    statusIndexNewWtModified.index_new = true ∧
    statusIndexNewWtModified.wt_modified = true ∧
    ((statusIndexNewWtModified.conflicted = false →
        git_status_to_string statusIndexNewWtModified =
          some "staged_modified") ∧
      git_status_to_string statusIndexNewWtModified ≠ some "staged" ∧
      git_status_to_string statusIndexNewWtModified ≠ some "modified") :=
  ⟨rfl, rfl, index_new_wt_modified_staged_modified statusIndexNewWtModified
    rfl rfl⟩

/-- C3: a flag set with some index-level change flag (index-modified,
index-new or index-renamed), no conflict flag, not both index-new and
worktree-modified, and neither worktree-modified nor worktree-deleted, is
classified `staged`. -/
theorem index_change_clean_worktree_staged (s : Status)
    (hidx : s.index_modified = true ∨ s.index_new = true ∨
      s.index_renamed = true)
    (hc : s.conflicted = false)
    (hnb : ¬(s.index_new = true ∧ s.wt_modified = true))
    (hwm : s.wt_modified = false) (hwd : s.wt_deleted = false) :
    git_status_to_string s = some "staged" := by
  obtain ⟨c, iN, iM, iD, iR, wN, wM, wD, wR⟩ := s
  simp only at hidx hc hwm hwd
  subst hc hwm hwd
  rcases hidx with h | h | h <;> subst h <;> simp [git_status_to_string]

/-- Witness for C3 at the flag set with exactly index-modified set. -/
theorem index_change_clean_worktree_staged_witness :
    (statusIndexModifiedOnly.index_modified = true ∨
      statusIndexModifiedOnly.index_new = true ∨
      statusIndexModifiedOnly.index_renamed = true) ∧
    statusIndexModifiedOnly.conflicted = false ∧
    ¬(statusIndexModifiedOnly.index_new = true ∧
      statusIndexModifiedOnly.wt_modified = true) ∧
    statusIndexModifiedOnly.wt_modified = false ∧
    statusIndexModifiedOnly.wt_deleted = false ∧
    git_status_to_string statusIndexModifiedOnly = some "staged" :=
  ⟨Or.inl rfl, rfl, by decide, rfl, rfl,
    index_change_clean_worktree_staged statusIndexModifiedOnly (Or.inl rfl)
      rfl (by decide) rfl rfl⟩

/-- C4: when the named path resolves inside the working tree and its status
carries the worktree-new flag, `git_revert_file` fails with the
cannot-revert-untracked error and returns the repository state unchanged (no
checkout happens). -/
theorem revert_untracked_fails_unchanged (repo : Repo)
    (path wd rel : String) (st : Status)
    (hwd : repo.workdir = some wd)
    (hrel : stripWorkdir wd path = some rel)
    (hst : repo.statusFile rel = .ok st)
    (huntracked : st.wt_new = true) :
    git_revert_file repo path =
      (.error "Cannot revert an untracked file", repo) := by
  simp [git_revert_file, hwd, hrel, hst, huntracked]

/-- Witness for C4 at a repository where `a.md` is untracked. -/
theorem revert_untracked_fails_unchanged_witness :
    repoUntracked.workdir = some "/r/" ∧
    stripWorkdir "/r/" "/r/a.md" = some "a.md" ∧
    repoUntracked.statusFile "a.md" = .ok statusUntracked ∧
    statusUntracked.wt_new = true ∧
    git_revert_file repoUntracked "/r/a.md" =
      (.error "Cannot revert an untracked file", repoUntracked) :=
  ⟨rfl, rfl, rfl, rfl,
    revert_untracked_fails_unchanged repoUntracked "/r/a.md" "/r/" "a.md"
      statusUntracked rfl rfl rfl rfl⟩

/-- Any successful `git_commit_file` call went down the single success path:
the working directory and relative path resolved, the path's content was read
from the working tree, and the record holds the updated index as its tree,
`HEAD.toList` as its parents, and the given message. -/
theorem git_commit_file_ok_shape (repo : CommitRepo) (path msg : String)
    (rec : CommitRecord) (h : git_commit_file repo path msg = .ok rec) :
    ∃ wd rel content,
      repo.workdir = some wd ∧ stripWorkdir wd path = some rel ∧
      repo.worktreeFile rel = some content ∧
      rec = { tree := setEntry repo.index rel content
              parents := repo.headCommit.toList, message := msg } := by
  unfold git_commit_file at h
  split at h
  · simp at h
  next wd hwd =>
    split at h
    · simp at h
    next rel hrel =>
      split at h
      · simp at h
      next content hwt =>
        split at h
        · injection h with h'
          exact ⟨wd, rel, content, hwd, hrel, hwt, h'.symm⟩
        · simp at h

/-- C5: every commit created by a successful `git_commit_file` has exactly
one parent, the prior HEAD commit, when HEAD peels to a commit, and zero
parents when it does not. -/
theorem commit_parent_is_head (repo : CommitRepo) (path msg : String)
    (rec : CommitRecord) (h : git_commit_file repo path msg = .ok rec) :
    (∀ c, repo.headCommit = some c → rec.parents = [c]) ∧
    (repo.headCommit = none → rec.parents = []) := by
  obtain ⟨wd, rel, content, hwd, hrel, hwt, hrec⟩ :=
    git_commit_file_ok_shape repo path msg rec h
  subst hrec
  exact ⟨fun c hc => by simp [hc], fun hc => by simp [hc]⟩

/-- Witness for C5 at a commit environment with HEAD at commit 7. -/
theorem commit_parent_is_head_witness :
    git_commit_file commitRepoExample "/r/a.md" "add a" =
      .ok commitRecExample ∧
    ((∀ c, commitRepoExample.headCommit = some c →
        commitRecExample.parents = [c]) ∧
      (commitRepoExample.headCommit = none →
        commitRecExample.parents = [])) :=
  ⟨rfl, commit_parent_is_head commitRepoExample "/r/a.md" "add a"
    commitRecExample rfl⟩

/-- Replacing one key's entry leaves the lookup of every other key
unchanged. -/
theorem lookupEntry_setEntry_ne (l : Entries) (key p v : String)
    (h : p ≠ key) :
    lookupEntry (setEntry l key v) p = lookupEntry l p := by
  induction l with
  | nil => simp [setEntry, lookupEntry, Ne.symm h]
  | cons hd tl ih =>
    obtain ⟨k, w⟩ := hd
    by_cases hk : k = key
    · subst hk
      simp [setEntry, lookupEntry, Ne.symm h]
    · simp only [setEntry, hk, if_false, lookupEntry]
      by_cases hp : k = p <;> simp [hp, ih]

/-- C6: a successful `git_commit_file` stages exactly the named path — the
committed tree is the prior index updated at that one relative path with the
working-tree content — so every other path's entry in the committed tree is
exactly its prior staged entry. -/
theorem commit_stages_only_named_path (repo : CommitRepo)
    (path msg wd rel : String) (rec : CommitRecord)
    (hwd : repo.workdir = some wd)
    (hrel : stripWorkdir wd path = some rel)
    (h : git_commit_file repo path msg = .ok rec) :
    (∃ content, repo.worktreeFile rel = some content ∧
      rec.tree = setEntry repo.index rel content) ∧
    ∀ p, p ≠ rel → lookupEntry rec.tree p = lookupEntry repo.index p := by
  obtain ⟨wd', rel', content, hwd', hrel', hwt, hrec⟩ :=
    git_commit_file_ok_shape repo path msg rec h
  rw [hwd] at hwd'
  injection hwd' with ewd
  subst ewd
  rw [hrel] at hrel'
  injection hrel' with erel
  subst erel
  subst hrec
  exact ⟨⟨content, hwt, rfl⟩,
    fun p hp => lookupEntry_setEntry_ne repo.index rel p content hp⟩

/-- Witness for C6 at the commit environment with `b.md` staged and `a.md`
committed; the staged entry for `b.md` survives into the tree. -/
theorem commit_stages_only_named_path_witness :
    commitRepoExample.workdir = some "/r/" ∧
    stripWorkdir "/r/" "/r/a.md" = some "a.md" ∧
    git_commit_file commitRepoExample "/r/a.md" "add a" =
      .ok commitRecExample ∧
    ((∃ content, commitRepoExample.worktreeFile "a.md" = some content ∧
        commitRecExample.tree = setEntry commitRepoExample.index "a.md"
          content) ∧
      ∀ p, p ≠ "a.md" → lookupEntry commitRecExample.tree p =
        lookupEntry commitRepoExample.index p) :=
  ⟨rfl, rfl, rfl,
    commit_stages_only_named_path commitRepoExample "/r/a.md" "add a" "/r/"
      "a.md" commitRecExample rfl rfl rfl⟩

/-- A list is a prefix of itself followed by anything. -/
theorem isPrefixList_append (xs ys : List Char) :
    isPrefixList xs (xs ++ ys) = true := by
  induction xs with
  | nil => rfl
  | cons a as ih => simp [isPrefixList, ih]

/-- Both error messages `git_sync` can produce in its pull phase are tagged
as pull failures. -/
theorem pullTagged_spawn_msg (e : String) :
    pullTagged ("Failed to run git pull: " ++ e) = true := by
  unfold pullTagged
  rw [String.data_append, isPrefixList_append, Bool.true_or]

/-- The exit-failure message of the pull phase is tagged as a pull
failure. -/
theorem pullTagged_exit_msg (e : String) :
    pullTagged ("git pull failed: " ++ e) = true := by
  unfold pullTagged
  rw [String.data_append, isPrefixList_append, Bool.or_true]

/-- C7: over a discovered non-bare repository, whenever the pull phase fails
(spawn failure or unsuccessful exit) `git_sync` returns an error tagged as a
pull failure and never attempts the push phase; and it returns success only
when neither the pull phase nor the push phase failed. -/
theorem sync_pull_fail_fast (env : SyncEnv) (wd : String)
    (hd : env.discovered = some (some wd)) :
    (cmdFailed env.pullResult = true →
      (git_sync env).pushAttempted = false ∧
      ∃ msg, (git_sync env).result = .error msg ∧ pullTagged msg = true) ∧
    (∀ s, (git_sync env).result = .ok s →
      cmdFailed env.pullResult = false ∧
      cmdFailed env.pushResult = false) := by
  unfold git_sync
  rw [hd]
  cases hpull : env.pullResult with
  | error e =>
    exact ⟨fun _ => ⟨rfl, "Failed to run git pull: " ++ e, rfl,
      pullTagged_spawn_msg e⟩, fun s hs => by simp at hs⟩
  | ok pull =>
    cases hsucc : pull.success with
    | false =>
      refine ⟨fun _ => ⟨?_, "git pull failed: " ++ pull.stderr, ?_, ?_⟩,
        fun s hs => ?_⟩
      · simp [hsucc]
      · simp [hsucc]
      · exact pullTagged_exit_msg pull.stderr
      · simp [hsucc] at hs
    | true =>
      refine ⟨fun hfail => ?_, fun s hs => ?_⟩
      · rw [cmdFailed, hsucc] at hfail
        simp at hfail
      · refine ⟨by rw [cmdFailed, hsucc]; rfl, ?_⟩
        cases hpush : env.pushResult with
        | error e =>
          rw [hpush] at hs
          simp [hsucc] at hs
        | ok push =>
          rw [hpush] at hs
          cases hps : push.success with
          | false => simp [hsucc, hps] at hs
          | true => rw [cmdFailed, hps]; rfl

/-- Witness for C7 at a sync environment whose pull exits unsuccessfully. -/
theorem sync_pull_fail_fast_witness :
    syncEnvPullFails.discovered = some (some "/r/") ∧
    cmdFailed syncEnvPullFails.pullResult = true ∧
    (git_sync syncEnvPullFails).pushAttempted = false ∧
    ∃ msg, (git_sync syncEnvPullFails).result = .error msg ∧
      pullTagged msg = true :=
  ⟨rfl, rfl, (sync_pull_fail_fast syncEnvPullFails "/r/" rfl).1 rfl⟩

/-- C8: when HEAD resolves to a commit on a named branch and the reference
`refs/remotes/origin/<branch>` does not exist, `get_git_ahead_behind`
returns the zero divergence pair, not an error. -/
theorem ahead_behind_no_upstream_zero (repo : ABRepo) (h : HeadRef)
    (oid : Nat) (branchName : String)
    (hh : repo.head = some h) (ht : h.target = some oid)
    (hs : h.shorthand = some branchName)
    (hf : repo.findRef ("refs/remotes/origin/" ++ branchName) = none) :
    get_git_ahead_behind (some repo) = .ok (some (0, 0)) := by
  simp [get_git_ahead_behind, hh, ht, hs, hf]

/-- Witness for C8 at a repository on branch `main` with no upstream
reference. -/
theorem ahead_behind_no_upstream_zero_witness :
    abRepoNoUpstream.head = some headRefMain ∧
    headRefMain.target = some 42 ∧
    headRefMain.shorthand = some "main" ∧
    abRepoNoUpstream.findRef ("refs/remotes/origin/" ++ "main") = none ∧
    get_git_ahead_behind (some abRepoNoUpstream) = .ok (some (0, 0)) :=
  ⟨rfl, rfl, rfl, rfl, ahead_behind_no_upstream_zero abRepoNoUpstream
    headRefMain 42 "main" rfl rfl rfl rfl⟩

/-- C9, counterexample to the claim as stated: at a repository whose current
branch `main` has no upstream reference, `get_git_ahead_behind` does not
return the absent result — it returns the present pair `(0, 0)`. -/
theorem ahead_behind_no_upstream_absent_counterexample :
    abRepoNoUpstream.findRef ("refs/remotes/origin/" ++ "main") = none ∧
    get_git_ahead_behind (some abRepoNoUpstream) ≠ .ok none := by
  refine ⟨rfl, fun hcontra => ?_⟩
  rw [show get_git_ahead_behind (some abRepoNoUpstream) =
    .ok (some (0, 0)) from rfl] at hcontra
  exact Option.noConfusion (Except.ok.inj hcontra)

/-- C9, amended: when HEAD resolves to a commit on a named branch whose
upstream reference is missing, the divergence is represented as the present
pair `(0, 0)`, never as the absent result. -/
theorem ahead_behind_no_upstream_present_pair (repo : ABRepo) (h : HeadRef)
    (oid : Nat) (branchName : String)
    (hh : repo.head = some h) (ht : h.target = some oid)
    (hs : h.shorthand = some branchName)
    (hf : repo.findRef ("refs/remotes/origin/" ++ branchName) = none) :
    get_git_ahead_behind (some repo) = .ok (some (0, 0)) ∧
    get_git_ahead_behind (some repo) ≠ .ok none := by
  have hz : get_git_ahead_behind (some repo) = .ok (some (0, 0)) := by
    simp [get_git_ahead_behind, hh, ht, hs, hf]
  refine ⟨hz, fun hcontra => ?_⟩
  rw [hz] at hcontra
  exact Option.noConfusion (Except.ok.inj hcontra)

/-- Witness for C9 (amended) at the `main`-branch repository with no
upstream reference. -/
theorem ahead_behind_no_upstream_present_pair_witness :
    abRepoNoUpstream.head = some headRefMain ∧
    (get_git_ahead_behind (some abRepoNoUpstream) = .ok (some (0, 0)) ∧
      get_git_ahead_behind (some abRepoNoUpstream) ≠ .ok none) :=
  ⟨rfl, ahead_behind_no_upstream_present_pair abRepoNoUpstream
    headRefMain 42 "main" rfl rfl rfl rfl⟩

/-- C10: when repository discovery fails for the path's parent,
`get_file_git_status` succeeds with the absent label rather than returning
an error. -/
theorem file_status_no_repo_ok_none (discovered : Option Repo)
    (path : String) (hd : discovered = none) :
    get_file_git_status discovered path = .ok none := by
  subst hd
  rfl

/-- Witness for C10 at a path outside any repository. -/
theorem file_status_no_repo_ok_none_witness :
    (none : Option Repo) = none ∧
    get_file_git_status none "/tmp/notes.md" = .ok none :=
  ⟨rfl, file_status_no_repo_ok_none none "/tmp/notes.md" rfl⟩

end Marko
